import Mathlib

/-!
A shallow embedding of the two core components of the TheiaSfM front end
found in this repository:

* `theia/sfm/estimate_twoview_info.cc` — the robust two-view geometry
  estimator (`EstimateTwoViewInfo` and its calibrated / uncalibrated
  branches, feature normalization and visibility scoring);
* `theia/sfm/feature_extractor_and_matcher.cc` — the concurrent feature
  pipeline (`ExtractFeatures`, `ProcessImage`, `ExtractAndMatchFeatures`).

External collaborators that are not part of the repository sources
(the RANSAC relative-pose solvers, the EXIF reader, the descriptor
extractor, the visibility pyramid, filesystem queries, the camera model
internals) are modelled as function-valued parameters gathered in
environment records, so every theorem below is quantified over their
behaviour.  C++ doubles are modelled as rationals: every arithmetic
operation performed by the embedded code (sums, products, divisions,
comparisons against 0.5) is exact on the values involved.

The pipeline is modelled sequentially: each per-image task of the thread
pool runs atomically in submission order.  Each task only writes the
calibration-map entry of its own image and appends one matcher
registration, both under a lock in the source, so this is a faithful
serialization of the source's interleavings for the state observed after
the barrier.
-/

namespace TheiaSpec

/-- A 2D point (pixel location), `Eigen::Vector2d`. -/
abbrev Point := ℚ × ℚ

/-- `Eigen::Vector3d`. -/
abbrev Vector3 := ℚ × ℚ × ℚ

/-- `Eigen::Matrix3d`; only produced by the external solver and consumed
by the external angle-axis conversion, never inspected by embedded code. -/
abbrev Matrix3 := Fin 3 → Fin 3 → ℚ

/-- One optionally-set intrinsic entry of `CameraIntrinsicsPrior`
(`struct Prior { bool is_set; double value[...]; }`). -/
structure PriorField where
  is_set : Bool := false
  value : ℚ := 0
  deriving DecidableEq, Repr

/-- `theia::CameraIntrinsicsPrior`: per-image optionally-set intrinsics
plus plain integer image dimensions (width/height are not flagged). -/
structure CameraIntrinsicsPrior where
  focal_length : PriorField := {}
  principal_point_x : PriorField := {}
  principal_point_y : PriorField := {}
  aspect_ratio : PriorField := {}
  skew : PriorField := {}
  radial_distortion_1 : PriorField := {}
  radial_distortion_2 : PriorField := {}
  image_width : ℕ := 0
  image_height : ℕ := 0
  deriving DecidableEq, Repr

/-- `theia::FeatureCorrespondence`: a pair of pixel locations. -/
structure FeatureCorrespondence where
  feature1 : Point := (0, 0)
  feature2 : Point := (0, 0)
  deriving DecidableEq, Repr

instance : Inhabited FeatureCorrespondence := ⟨{}⟩

/-- The intrinsics of `theia::Camera` that feature normalization reads. -/
structure Camera where
  focal_length : ℚ
  aspect_ratio : ℚ
  skew : ℚ
  principal_point_x : ℚ
  principal_point_y : ℚ
  deriving DecidableEq, Repr

/-- Default/guess values used by `Camera::SetFromCameraIntrinsicsPriors`
for intrinsics whose prior is not set.  The camera model sources are not
part of this repository, so the guesses are kept abstract as functions of
the prior; every theorem quantifies over them. -/
structure CameraDefaults where
  focalGuess : CameraIntrinsicsPrior → ℚ
  ppxGuess : CameraIntrinsicsPrior → ℚ
  ppyGuess : CameraIntrinsicsPrior → ℚ
  aspectGuess : CameraIntrinsicsPrior → ℚ
  skewGuess : CameraIntrinsicsPrior → ℚ

/-- Modelled from the spec: `Camera::SetFromCameraIntrinsicsPriors`
(its source is not under src/) takes each intrinsic from the prior when
the prior's flag is set and otherwise falls back to a reasonable guess,
as documented by the comment above the focal-length reset in
`NormalizeFeatures`. -/
def SetFromCameraIntrinsicsPriors (d : CameraDefaults)
    (p : CameraIntrinsicsPrior) : Camera where
  focal_length := if p.focal_length.is_set then p.focal_length.value else d.focalGuess p
  aspect_ratio := if p.aspect_ratio.is_set then p.aspect_ratio.value else d.aspectGuess p
  skew := if p.skew.is_set then p.skew.value else d.skewGuess p
  principal_point_x :=
    if p.principal_point_x.is_set then p.principal_point_x.value else d.ppxGuess p
  principal_point_y :=
    if p.principal_point_y.is_set then p.principal_point_y.value else d.ppyGuess p

/-- Modelled from the spec: `Camera::PixelToNormalizedCoordinates`
(camera model internals are outside src/) is the pinhole
pixel-to-normalized-ray transform: undo principal point, skew, aspect
ratio and focal length; the third homogeneous coordinate is 1, so
`hnormalized` returns the first two components unchanged. -/
def PixelToNormalizedCoordinates (c : Camera) (p : Point) : Point :=
  let yn := (p.2 - c.principal_point_y) / (c.focal_length * c.aspect_ratio)
  let xn := (p.1 - c.principal_point_x - yn * c.skew) / c.focal_length
  (xn, yn)

/-- The camera pair built at the top of `NormalizeFeatures`
(estimate_twoview_info.cc lines 74-85): both cameras are set from the
priors, and if either prior lacks a set focal length, BOTH cameras'
focal lengths are reset to 1.0. -/
def camerasForNormalization (d : CameraDefaults)
    (prior1 prior2 : CameraIntrinsicsPrior) : Camera × Camera :=
  let camera1 := SetFromCameraIntrinsicsPriors d prior1
  let camera2 := SetFromCameraIntrinsicsPriors d prior2
  if ¬prior1.focal_length.is_set ∨ ¬prior2.focal_length.is_set then
    ({ camera1 with focal_length := 1 }, { camera2 with focal_length := 1 })
  else
    (camera1, camera2)

/-- `NormalizeFeatures` (estimate_twoview_info.cc lines 67-100): map each
correspondence through each image's pixel-to-normalized transform using
the cameras of `camerasForNormalization`. -/
def NormalizeFeatures (d : CameraDefaults) (prior1 prior2 : CameraIntrinsicsPrior)
    (correspondences : List FeatureCorrespondence) : List FeatureCorrespondence :=
  let cams := camerasForNormalization d prior1 prior2
  correspondences.map fun c =>
    { feature1 := PixelToNormalizedCoordinates cams.1 c.feature1
      feature2 := PixelToNormalizedCoordinates cams.2 c.feature2 }

/-- `theia::RansacParameters` (the fields estimate_twoview_info.cc sets,
with the library defaults for the rest that matter here). -/
structure RansacParameters where
  rng : ℕ := 0
  failure_probability : ℚ := 1 / 100
  min_iterations : ℕ := 100
  max_iterations : ℕ := 10000
  error_thresh : ℚ := -1
  use_mle : Bool := false
  deriving DecidableEq, Repr

/-- `theia::RelativePose` (calibrated solver output). -/
structure RelativePose where
  rotation : Matrix3
  position : Vector3

/-- `theia::UncalibratedRelativePose`: also carries the two recovered
focal lengths. -/
structure UncalibratedRelativePose where
  rotation : Matrix3
  position : Vector3
  focal_length1 : ℚ
  focal_length2 : ℚ

/-- The part of `theia::RansacSummary` the estimator reads. -/
structure RansacSummary where
  inliers : List ℕ := []

/-- `theia::TwoViewInfo` (the fields estimate_twoview_info.cc writes). -/
structure TwoViewInfo where
  rotation_2 : Vector3 := (0, 0, 0)
  position_2 : Vector3 := (0, 0, 0)
  focal_length_1 : ℚ := 0
  focal_length_2 : ℚ := 0
  num_verified_matches : ℕ := 0
  visibility_score : ℕ := 0
  deriving DecidableEq, Repr

/-- `theia::EstimateTwoViewInfoOptions` (the fields the estimator reads). -/
structure EstimateTwoViewInfoOptions where
  rng : ℕ := 0
  ransac_type : ℕ := 0
  expected_ransac_confidence : ℚ := 9999 / 10000
  min_ransac_iterations : ℕ := 10
  max_ransac_iterations : ℕ := 1000
  max_sampson_error_pixels : ℚ := 6
  use_mle : Bool := true
  deriving DecidableEq, Repr

/-- External collaborators of estimate_twoview_info.cc, kept abstract:
the resolution threshold scaling helper, the two RANSAC solvers, the
Eigen angle-axis conversion (returning angle times unit axis), and the
visibility pyramid (width, height, number of levels, inserted points to
final `ComputeScore`). -/
structure TwoViewEnv where
  ComputeResolutionScaledThreshold : ℚ → ℕ → ℕ → ℚ
  EstimateRelativePose :
    ℕ → RansacParameters → List FeatureCorrespondence →
      Option (RelativePose × RansacSummary)
  EstimateUncalibratedRelativePose :
    ℕ → RansacParameters → List FeatureCorrespondence →
      Option (UncalibratedRelativePose × RansacSummary)
  angleAxisOf : Matrix3 → Vector3
  pyramidScore : ℕ → ℕ → ℕ → List Point → ℕ
  defaults : CameraDefaults

/-- `kNumPyramidLevels` in `ComputeVisibilityScoreOfInliers`. -/
def kNumPyramidLevels : ℕ := 6

/-- `ComputeVisibilityScoreOfInliers` (estimate_twoview_info.cc lines
103-129): if any image dimension is zero/unknown, return the size of the
inlier-index list; otherwise build one 6-level pyramid per image, add
every listed correspondence's pixel location, and sum the two scores. -/
def ComputeVisibilityScoreOfInliers (env : TwoViewEnv)
    (intrinsics1 intrinsics2 : CameraIntrinsicsPrior)
    (correspondences : List FeatureCorrespondence)
    (inlier_indices : List ℕ) : ℕ :=
  if intrinsics1.image_width = 0 ∨ intrinsics1.image_height = 0 ∨
      intrinsics2.image_width = 0 ∨ intrinsics2.image_height = 0 then
    inlier_indices.length
  else
    env.pyramidScore intrinsics1.image_width intrinsics1.image_height
      kNumPyramidLevels
      (inlier_indices.map fun i => (correspondences.getD i default).feature1) +
    env.pyramidScore intrinsics2.image_width intrinsics2.image_height
      kNumPyramidLevels
      (inlier_indices.map fun i => (correspondences.getD i default).feature2)

/-- The `RansacParameters` assembled by `EstimateTwoViewInfoCalibrated`
(lines 144-163): failure probability `1 - expected_ransac_confidence`,
iteration bounds from the options, error threshold
`scaled1 * scaled2 / (focal1 * focal2)`, and `use_mle` from the options. -/
def calibratedRansacOptions (env : TwoViewEnv)
    (options : EstimateTwoViewInfoOptions)
    (intrinsics1 intrinsics2 : CameraIntrinsicsPrior) : RansacParameters :=
  let max_sampson_error_pixels1 :=
    env.ComputeResolutionScaledThreshold options.max_sampson_error_pixels
      intrinsics1.image_width intrinsics1.image_height
  let max_sampson_error_pixels2 :=
    env.ComputeResolutionScaledThreshold options.max_sampson_error_pixels
      intrinsics2.image_width intrinsics2.image_height
  { rng := options.rng
    failure_probability := 1 - options.expected_ransac_confidence
    min_iterations := options.min_ransac_iterations
    max_iterations := options.max_ransac_iterations
    error_thresh := max_sampson_error_pixels1 * max_sampson_error_pixels2 /
      (intrinsics1.focal_length.value * intrinsics2.focal_length.value)
    use_mle := options.use_mle }

/-- The `RansacParameters` assembled by `EstimateTwoViewInfoUncalibrated`
(lines 204-221): same as the calibrated ones except the error threshold
is `scaled1 * scaled2` with no focal division, and `use_mle` is left at
its default (the source does not set it in this branch). -/
def uncalibratedRansacOptions (env : TwoViewEnv)
    (options : EstimateTwoViewInfoOptions)
    (intrinsics1 intrinsics2 : CameraIntrinsicsPrior) : RansacParameters :=
  let max_sampson_error_pixels1 :=
    env.ComputeResolutionScaledThreshold options.max_sampson_error_pixels
      intrinsics1.image_width intrinsics1.image_height
  let max_sampson_error_pixels2 :=
    env.ComputeResolutionScaledThreshold options.max_sampson_error_pixels
      intrinsics2.image_width intrinsics2.image_height
  { rng := options.rng
    failure_probability := 1 - options.expected_ransac_confidence
    min_iterations := options.min_ransac_iterations
    max_iterations := options.max_ransac_iterations
    error_thresh := max_sampson_error_pixels1 * max_sampson_error_pixels2 }

/-- `EstimateTwoViewInfoCalibrated` (lines 131-189).  The result is the
returned bool together with the final states of the two output
parameters `*twoview_info` and `*inlier_indices`.  Note the source
computes `visibility_score` from `*inlier_indices` BEFORE executing
`*inlier_indices = summary.inliers;` (lines 183-186), so the score is
computed from the caller's incoming (already cleared) index list. -/
def EstimateTwoViewInfoCalibrated (env : TwoViewEnv)
    (options : EstimateTwoViewInfoOptions)
    (intrinsics1 intrinsics2 : CameraIntrinsicsPrior)
    (correspondences : List FeatureCorrespondence)
    (twoview_info : TwoViewInfo) (inlier_indices : List ℕ) :
    Bool × TwoViewInfo × List ℕ :=
  let normalized_correspondences :=
    NormalizeFeatures env.defaults intrinsics1 intrinsics2 correspondences
  let ransac_options := calibratedRansacOptions env options intrinsics1 intrinsics2
  match env.EstimateRelativePose options.ransac_type ransac_options
      normalized_correspondences with
  | none => (false, twoview_info, inlier_indices)
  | some (relative_pose, summary) =>
    let twoview_info :=
      { twoview_info with
        rotation_2 := env.angleAxisOf relative_pose.rotation
        position_2 := relative_pose.position
        focal_length_1 := intrinsics1.focal_length.value
        focal_length_2 := intrinsics2.focal_length.value
        num_verified_matches := summary.inliers.length
        visibility_score := ComputeVisibilityScoreOfInliers env intrinsics1
          intrinsics2 correspondences inlier_indices }
    (true, twoview_info, summary.inliers)

/-- `EstimateTwoViewInfoUncalibrated` (lines 191-248).  As in the
calibrated branch, `visibility_score` is computed from the incoming
`*inlier_indices` before the assignment on line 245. -/
def EstimateTwoViewInfoUncalibrated (env : TwoViewEnv)
    (options : EstimateTwoViewInfoOptions)
    (intrinsics1 intrinsics2 : CameraIntrinsicsPrior)
    (correspondences : List FeatureCorrespondence)
    (twoview_info : TwoViewInfo) (inlier_indices : List ℕ) :
    Bool × TwoViewInfo × List ℕ :=
  let centered_correspondences :=
    NormalizeFeatures env.defaults intrinsics1 intrinsics2 correspondences
  let ransac_options := uncalibratedRansacOptions env options intrinsics1 intrinsics2
  match env.EstimateUncalibratedRelativePose options.ransac_type ransac_options
      centered_correspondences with
  | none => (false, twoview_info, inlier_indices)
  | some (relative_pose, summary) =>
    let twoview_info :=
      { twoview_info with
        rotation_2 := env.angleAxisOf relative_pose.rotation
        position_2 := relative_pose.position
        focal_length_1 := relative_pose.focal_length1
        focal_length_2 := relative_pose.focal_length2
        num_verified_matches := summary.inliers.length
        visibility_score := ComputeVisibilityScoreOfInliers env intrinsics1
          intrinsics2 correspondences inlier_indices }
    (true, twoview_info, summary.inliers)

/-- `EstimateTwoViewInfo` (lines 252-292): clear the caller's inlier
list, then dispatch on which focal-length priors are set (both set:
calibrated; exactly one set: warn and fall through to uncalibrated;
none set: uncalibrated). -/
def EstimateTwoViewInfo (env : TwoViewEnv)
    (options : EstimateTwoViewInfoOptions)
    (intrinsics1 intrinsics2 : CameraIntrinsicsPrior)
    (correspondences : List FeatureCorrespondence)
    (twoview_info : TwoViewInfo) (_inlier_indices : List ℕ) :
    Bool × TwoViewInfo × List ℕ :=
  let inlier_indices : List ℕ := []
  if intrinsics1.focal_length.is_set ∧ intrinsics2.focal_length.is_set then
    EstimateTwoViewInfoCalibrated env options intrinsics1 intrinsics2
      correspondences twoview_info inlier_indices
  else if intrinsics1.focal_length.is_set ∨ intrinsics2.focal_length.is_set then
    EstimateTwoViewInfoUncalibrated env options intrinsics1 intrinsics2
      correspondences twoview_info inlier_indices
  else
    EstimateTwoViewInfoUncalibrated env options intrinsics1 intrinsics2
      correspondences twoview_info inlier_indices

/-! ## The concurrent feature pipeline (feature_extractor_and_matcher.cc) -/

/-- `theia::Keypoint` (the coordinates read by the mask filter). -/
structure Keypoint where
  x : ℚ := 0
  y : ℚ := 0
  deriving DecidableEq, Repr

/-- A descriptor (`Eigen::VectorXf`); its contents are never inspected
by the embedded code. -/
abbrev Descriptor := List ℚ

/-- An opaque pairwise match result produced by the external matcher
(`theia::ImagePairMatch`). -/
abbrev ImagePairMatch := ℕ

/-- One registration handed to the external matcher: the cache-hit path
calls `matcher_->AddImage(image_filename, intrinsics)` and the full path
calls `matcher_->AddImage(image_filename, keypoints, descriptors,
intrinsics)`. -/
inductive MatcherRegistration where
  | cached (image_filename : String) (intrinsics : CameraIntrinsicsPrior)
  | full (image_filename : String) (features : List (Keypoint × Descriptor))
      (intrinsics : CameraIntrinsicsPrior)
  deriving DecidableEq, Repr

/-- The fields of `FeatureExtractorAndMatcher::Options` (including the
nested `feature_matcher_options` entries) that the embedded code reads. -/
structure FEMOptions where
  num_threads : ℕ := 1
  only_calibrated_views : Bool := false
  max_num_features : ℕ := 16384
  match_out_of_core : Bool := false
  keypoints_and_descriptors_output_dir : String := ""
  deriving DecidableEq, Repr

/-- External collaborators of feature_extractor_and_matcher.cc, kept
abstract: filesystem queries, the filename helper, the EXIF reader
(`none` models a false return, which the source turns into a fatal
`CHECK`), the descriptor extractor (`none` models a false return, which
the source logs and survives), image/mask dimensions, the bilinear mask
sample (of the grayscale-converted mask, channel 0) and the matcher's
batch matching. -/
structure PipelineEnv where
  FileExists : String → Bool
  GetFilenameFromFilepath : String → String
  ExtractEXIFMetadata :
    String → CameraIntrinsicsPrior → Option CameraIntrinsicsPrior
  DetectAndExtractDescriptors : String → Option (List (Keypoint × Descriptor))
  imageDims : String → ℕ × ℕ
  maskDims : String → ℕ × ℕ
  BilinearInterpolate : String → ℚ → ℚ → ℚ
  MatchImages : List MatcherRegistration → List ImagePairMatch

/-- Lookup in an association list modelling a `std::unordered_map`. -/
def mapFind : List (String × α) → String → Option α
  | [], _ => none
  | (k, v) :: rest, key => if k = key then some v else mapFind rest key

/-- Insert-or-update, modelling `map[key] = value`. -/
def mapInsert (key : String) (value : α) : List (String × α) → List (String × α)
  | [] => [(key, value)]
  | (k, v) :: rest =>
    if k = key then (key, value) :: rest else (k, v) :: mapInsert key value rest

/-- Modelled from the spec: `theia::AppendTrailingSlashIfNeeded`
(util/string.cc is not under src/) appends a slash when the directory
string is nonempty and does not already end in one, yielding the
`<cache_dir>/<image_filename>.features` layout. -/
def appendTrailingSlashIfNeeded (s : String) : String :=
  if s ≠ "" ∧ s.back ≠ '/' then s ++ "/" else s

/-- `kMaskThreshold` in `ExtractFeatures` (exactly 0.5). -/
def kMaskThreshold : ℚ := 1 / 2

/-- The if-size-exceeds-cap resize at the end of `ExtractFeatures`
(lines 113-116). -/
def capFeatures (options : FEMOptions) (features : List (Keypoint × Descriptor)) :
    List (Keypoint × Descriptor) :=
  if features.length > options.max_num_features then
    features.take options.max_num_features
  else
    features

/-- `ExtractFeatures` (lines 64-126).  `none` models the fatal `CHECK`
on a mask/image dimension mismatch; a failed descriptor extraction
returns with the output vectors still empty (non-fatal).  The source
removes masked keypoints by erasing positions in descending index order,
which keeps exactly the keypoints whose sampled mask value is not below
the threshold, in their original order: an order-preserving filter.
Keypoints and descriptors are erased at the same index, so the features
are modelled as a single list of pairs filtered on the keypoint. -/
def ExtractFeatures (env : PipelineEnv) (options : FEMOptions)
    (image_filepath imagemask_filepath : String) :
    Option (List (Keypoint × Descriptor)) :=
  match env.DetectAndExtractDescriptors image_filepath with
  | none => some []
  | some features =>
    if imagemask_filepath.length > 0 then
      if env.maskDims imagemask_filepath = env.imageDims image_filepath then
        some (capFeatures options (features.filter fun f =>
          ¬(env.BilinearInterpolate imagemask_filepath f.1.x f.1.y < kMaskThreshold)))
      else
        none
    else
      some (capFeatures options features)

/-- The calibration-resolution prefix of
`FeatureExtractorAndMatcher::ProcessImage` (lines 225-250): start from
the stored prior (or a default), and if it lacks a focal length run the
EXIF reader (a false return is a fatal `CHECK`, modelled as `none`),
fall back to the heuristic `1.2 * max(width, height)` focal length when
allowed, and write the result back to the shared calibration map.
Returns the resolved prior together with the updated map. -/
def resolveCalibration (env : PipelineEnv) (options : FEMOptions)
    (intrinsicsMap : List (String × CameraIntrinsicsPrior))
    (image_filepath : String) :
    Option (CameraIntrinsicsPrior × List (String × CameraIntrinsicsPrior)) :=
  let intrinsics := (mapFind intrinsicsMap image_filepath).getD {}
  if intrinsics.focal_length.is_set then
    some (intrinsics, intrinsicsMap)
  else
    match env.ExtractEXIFMetadata image_filepath intrinsics with
    | none => none
    | some exifIntrinsics =>
      let resolved :=
        if ¬options.only_calibrated_views ∧ ¬exifIntrinsics.focal_length.is_set then
          { exifIntrinsics with
            focal_length :=
              { is_set := true
                value := 6 / 5 *
                  (Nat.max exifIntrinsics.image_width exifIntrinsics.image_height : ℚ) } }
        else
          exifIntrinsics
      some (resolved, mapInsert image_filepath resolved intrinsicsMap)

/-- `FeatureExtractorAndMatcher::ProcessImage` (lines 222-295), run for
one image: resolve calibration; exit early (registering nothing) when
policy requires calibration and none was found; on a cache hit (out-of-
core matching enabled and the feature file exists) register id+prior
with the matcher and skip extraction; otherwise extract features and
register them.  The result is the updated calibration map and the
matcher registrations performed; `none` models a fatal `CHECK`. -/
def ProcessImage (env : PipelineEnv) (options : FEMOptions)
    (image_masks : List (String × String))
    (intrinsicsMap : List (String × CameraIntrinsicsPrior))
    (image_filepath : String) :
    Option (List (String × CameraIntrinsicsPrior) × List MatcherRegistration) :=
  let mask_filepath := (mapFind image_masks image_filepath).getD ""
  match resolveCalibration env options intrinsicsMap image_filepath with
  | none => none
  | some (intrinsics, intrinsicsMap) =>
    if options.only_calibrated_views ∧ ¬intrinsics.focal_length.is_set then
      some (intrinsicsMap, [])
    else
      let image_filename := env.GetFilenameFromFilepath image_filepath
      let output_dir :=
        appendTrailingSlashIfNeeded options.keypoints_and_descriptors_output_dir
      let feature_filepath := output_dir ++ image_filename ++ ".features"
      if options.match_out_of_core ∧ env.FileExists feature_filepath then
        some (intrinsicsMap, [.cached image_filename intrinsics])
      else
        match ExtractFeatures env options image_filepath mask_filepath with
        | none => none
        | some features =>
          some (intrinsicsMap, [.full image_filename features intrinsics])

/-- The submission loop of `ExtractAndMatchFeatures` (lines 199-208),
serialized: images whose file cannot be found are skipped (logged, never
submitted); the rest run `ProcessImage` in submission order.  Returns
the calibration map after the barrier and all matcher registrations. -/
def processLoop (env : PipelineEnv) (options : FEMOptions)
    (image_masks : List (String × String)) :
    List String → List (String × CameraIntrinsicsPrior) →
      Option (List (String × CameraIntrinsicsPrior) × List MatcherRegistration)
  | [], intrinsicsMap => some (intrinsicsMap, [])
  | image_filepath :: rest, intrinsicsMap =>
    if env.FileExists image_filepath then
      match ProcessImage env options image_masks intrinsicsMap image_filepath with
      | none => none
      | some (intrinsicsMap1, regs) =>
        match processLoop env options image_masks rest intrinsicsMap1 with
        | none => none
        | some (intrinsicsMap2, regsRest) => some (intrinsicsMap2, regs ++ regsRest)
    else
      processLoop env options image_masks rest intrinsicsMap

/-- The output-assembly loop of `ExtractAndMatchFeatures` (lines
217-219): `(*intrinsics)[i] = FindOrDie(intrinsics_, image_filepaths_[i])`
— a missing key is a fatal `CHECK`, modelled as `none`. -/
def collectPriors (intrinsicsMap : List (String × CameraIntrinsicsPrior)) :
    List String → Option (List CameraIntrinsicsPrior)
  | [] => some []
  | image_filepath :: rest =>
    match mapFind intrinsicsMap image_filepath, collectPriors intrinsicsMap rest with
    | some prior, some priors => some (prior :: priors)
    | _, _ => none

/-- The registration-time state of a `FeatureExtractorAndMatcher`:
the ordered image list and the two shared maps. -/
structure FEMState where
  image_filepaths : List String := []
  intrinsics : List (String × CameraIntrinsicsPrior) := []
  image_masks : List (String × String) := []
  deriving Repr

/-- `FeatureExtractorAndMatcher::AddImage(filepath)` (lines 144-147). -/
def AddImage (st : FEMState) (image_filepath : String) : FEMState :=
  { st with image_filepaths := st.image_filepaths ++ [image_filepath] }

/-- `FeatureExtractorAndMatcher::AddImage(filepath, intrinsics)`
(lines 149-157). -/
def AddImageWithCalibration (st : FEMState) (image_filepath : String)
    (intrinsics : CameraIntrinsicsPrior) : FEMState :=
  let st := AddImage st image_filepath
  { st with intrinsics := mapInsert image_filepath intrinsics st.intrinsics }

/-- `FeatureExtractorAndMatcher::AddMaskForFeaturesExtraction`
(lines 159-165). -/
def AddMaskForFeaturesExtraction (st : FEMState)
    (image_filepath mask_filepath : String) : FEMState :=
  { st with image_masks := mapInsert image_filepath mask_filepath st.image_masks }

/-- `FeatureExtractorAndMatcher::ExtractAndMatchFeatures` (lines
188-220): run the per-image tasks (missing files skipped), then the
matcher's batch matching over everything registered, then assemble the
output prior vector by reading the shared map in registration order
(`FindOrDie` — fatal when an image has no map entry).  `none` models an
aborted run. -/
def ExtractAndMatchFeatures (env : PipelineEnv) (options : FEMOptions)
    (st : FEMState) :
    Option (List CameraIntrinsicsPrior × List ImagePairMatch) :=
  match processLoop env options st.image_masks st.image_filepaths st.intrinsics with
  | none => none
  | some (intrinsicsMap, regs) =>
    let matchList := env.MatchImages regs
    match collectPriors intrinsicsMap st.image_filepaths with
    | none => none
    | some priors => some (priors, matchList)

/-! ## Derived notions used by the claims -/

/-- Changing only the numeric focal-length value of a prior (keeping its
set/unset flag and every other field). -/
def setFocalValue (p : CameraIntrinsicsPrior) (v : ℚ) : CameraIntrinsicsPrior :=
  { p with focal_length := { p.focal_length with value := v } }

/-- Field-wise monotonicity of the set/unset flags of a calibration
prior: every flagged field set in `a` is still set in `b`. -/
def priorSetLE (a b : CameraIntrinsicsPrior) : Prop :=
  (a.focal_length.is_set = true → b.focal_length.is_set = true) ∧
  (a.principal_point_x.is_set = true → b.principal_point_x.is_set = true) ∧
  (a.principal_point_y.is_set = true → b.principal_point_y.is_set = true) ∧
  (a.aspect_ratio.is_set = true → b.aspect_ratio.is_set = true) ∧
  (a.skew.is_set = true → b.skew.is_set = true) ∧
  (a.radial_distortion_1.is_set = true → b.radial_distortion_1.is_set = true) ∧
  (a.radial_distortion_2.is_set = true → b.radial_distortion_2.is_set = true)

/-! ## Claims about the two-view estimator -/

/-- C2.  When the RANSAC relative-pose solver of the branch being taken
finds no consistent model, `EstimateTwoViewInfo` returns failure, leaves
the two-view geometry record exactly as the caller passed it in (no
zero-filled or partial write), and leaves the inlier-index output empty
(it was cleared on entry and never repopulated). -/
theorem estimateTwoViewInfo_failure_no_record (env : TwoViewEnv)
    (options : EstimateTwoViewInfoOptions)
    (intrinsics1 intrinsics2 : CameraIntrinsicsPrior)
    (correspondences : List FeatureCorrespondence)
    (twoview_info : TwoViewInfo) (inlier_indices : List ℕ) :
    (intrinsics1.focal_length.is_set = true ∧ intrinsics2.focal_length.is_set = true →
      env.EstimateRelativePose options.ransac_type
          (calibratedRansacOptions env options intrinsics1 intrinsics2)
          (NormalizeFeatures env.defaults intrinsics1 intrinsics2 correspondences) =
        none →
      EstimateTwoViewInfo env options intrinsics1 intrinsics2 correspondences
          twoview_info inlier_indices = (false, twoview_info, [])) ∧
    (¬(intrinsics1.focal_length.is_set = true ∧ intrinsics2.focal_length.is_set = true) →
      env.EstimateUncalibratedRelativePose options.ransac_type
          (uncalibratedRansacOptions env options intrinsics1 intrinsics2)
          (NormalizeFeatures env.defaults intrinsics1 intrinsics2 correspondences) =
        none →
      EstimateTwoViewInfo env options intrinsics1 intrinsics2 correspondences
          twoview_info inlier_indices = (false, twoview_info, [])) := by
  constructor
  · intro h hfail
    simp [EstimateTwoViewInfo, EstimateTwoViewInfoCalibrated, h.1, h.2, hfail]
  · intro h hfail
    cases hb1 : intrinsics1.focal_length.is_set <;>
      cases hb2 : intrinsics2.focal_length.is_set <;>
      simp [hb1, hb2] at h ⊢ <;>
      simp [EstimateTwoViewInfo, EstimateTwoViewInfoUncalibrated, hb1, hb2, hfail]

/-- Witness for C2: a concrete failing input (both solvers refuse),
with a nonempty twoview record and a nonempty incoming inlier list to
show neither is written or kept. -/
theorem estimateTwoViewInfo_failure_no_record_witness :
    EstimateTwoViewInfo
        { ComputeResolutionScaledThreshold := fun t _ _ => t
          EstimateRelativePose := fun _ _ _ => none
          EstimateUncalibratedRelativePose := fun _ _ _ => none
          angleAxisOf := fun _ => (0, 0, 0)
          pyramidScore := fun _ _ _ pts => pts.length
          defaults :=
            { focalGuess := fun _ => 1, ppxGuess := fun _ => 0, ppyGuess := fun _ => 0
              aspectGuess := fun _ => 1, skewGuess := fun _ => 0 } }
        {} { focal_length := { is_set := true, value := 2 } }
        { focal_length := { is_set := true, value := 3 } } []
        { focal_length_1 := 7 } [4, 5] =
      (false, { focal_length_1 := 7 }, []) :=
  (estimateTwoViewInfo_failure_no_record _ _ _ _ _ _ _).1 (by decide) rfl

/-- C3.  `EstimateTwoViewInfo` dispatches to the calibrated branch
exactly when both focal-length priors are set, and to the uncalibrated
branch otherwise; in the exactly-one-set case the successful record
carries the two solver-recovered focal-length estimates (the
uncalibrated record shape). -/
theorem estimateTwoViewInfo_branch_selection (env : TwoViewEnv)
    (options : EstimateTwoViewInfoOptions)
    (intrinsics1 intrinsics2 : CameraIntrinsicsPrior)
    (correspondences : List FeatureCorrespondence)
    (twoview_info : TwoViewInfo) (inlier_indices : List ℕ) :
    (intrinsics1.focal_length.is_set = true ∧ intrinsics2.focal_length.is_set = true →
      EstimateTwoViewInfo env options intrinsics1 intrinsics2 correspondences
          twoview_info inlier_indices =
        EstimateTwoViewInfoCalibrated env options intrinsics1 intrinsics2
          correspondences twoview_info []) ∧
    (¬(intrinsics1.focal_length.is_set = true ∧ intrinsics2.focal_length.is_set = true) →
      EstimateTwoViewInfo env options intrinsics1 intrinsics2 correspondences
          twoview_info inlier_indices =
        EstimateTwoViewInfoUncalibrated env options intrinsics1 intrinsics2
          correspondences twoview_info []) ∧
    (∀ relative_pose summary,
      (intrinsics1.focal_length.is_set = true) ≠ (intrinsics2.focal_length.is_set = true) →
      env.EstimateUncalibratedRelativePose options.ransac_type
          (uncalibratedRansacOptions env options intrinsics1 intrinsics2)
          (NormalizeFeatures env.defaults intrinsics1 intrinsics2 correspondences) =
        some (relative_pose, summary) →
      (EstimateTwoViewInfo env options intrinsics1 intrinsics2 correspondences
          twoview_info inlier_indices).1 = true ∧
      (EstimateTwoViewInfo env options intrinsics1 intrinsics2 correspondences
          twoview_info inlier_indices).2.1.focal_length_1 =
        relative_pose.focal_length1 ∧
      (EstimateTwoViewInfo env options intrinsics1 intrinsics2 correspondences
          twoview_info inlier_indices).2.1.focal_length_2 =
        relative_pose.focal_length2) := by
  refine ⟨fun h => ?_, fun h => ?_, fun rp summary hmix hsol => ?_⟩
  · simp [EstimateTwoViewInfo, h.1, h.2]
  · cases hb1 : intrinsics1.focal_length.is_set <;>
      cases hb2 : intrinsics2.focal_length.is_set <;>
      simp [hb1, hb2] at h ⊢ <;>
      simp [EstimateTwoViewInfo, hb1, hb2]
  · cases hb1 : intrinsics1.focal_length.is_set <;>
      cases hb2 : intrinsics2.focal_length.is_set <;>
      simp [hb1, hb2] at hmix <;>
      simp [EstimateTwoViewInfo, EstimateTwoViewInfoUncalibrated, hb1, hb2, hsol]

/-- Witness for C3: a mixed-calibration input (only image 1 has a set
focal length) on which the uncalibrated solver succeeds with recovered
focal lengths 11 and 13; the record carries exactly those. -/
theorem estimateTwoViewInfo_branch_selection_witness :
    (EstimateTwoViewInfo
        { ComputeResolutionScaledThreshold := fun t _ _ => t
          EstimateRelativePose := fun _ _ _ => none
          EstimateUncalibratedRelativePose := fun _ _ _ =>
            some (⟨fun _ _ => 0, (0, 0, 0), 11, 13⟩, ⟨[0]⟩)
          angleAxisOf := fun _ => (0, 0, 0)
          pyramidScore := fun _ _ _ pts => pts.length
          defaults :=
            { focalGuess := fun _ => 1, ppxGuess := fun _ => 0, ppyGuess := fun _ => 0
              aspectGuess := fun _ => 1, skewGuess := fun _ => 0 } }
        {} { focal_length := { is_set := true, value := 2 } } {} []
        {} []).1 = true ∧
    (EstimateTwoViewInfo
        { ComputeResolutionScaledThreshold := fun t _ _ => t
          EstimateRelativePose := fun _ _ _ => none
          EstimateUncalibratedRelativePose := fun _ _ _ =>
            some (⟨fun _ _ => 0, (0, 0, 0), 11, 13⟩, ⟨[0]⟩)
          angleAxisOf := fun _ => (0, 0, 0)
          pyramidScore := fun _ _ _ pts => pts.length
          defaults :=
            { focalGuess := fun _ => 1, ppxGuess := fun _ => 0, ppyGuess := fun _ => 0
              aspectGuess := fun _ => 1, skewGuess := fun _ => 0 } }
        {} { focal_length := { is_set := true, value := 2 } } {} []
        {} []).2.1.focal_length_1 = 11 ∧
    (EstimateTwoViewInfo
        { ComputeResolutionScaledThreshold := fun t _ _ => t
          EstimateRelativePose := fun _ _ _ => none
          EstimateUncalibratedRelativePose := fun _ _ _ =>
            some (⟨fun _ _ => 0, (0, 0, 0), 11, 13⟩, ⟨[0]⟩)
          angleAxisOf := fun _ => (0, 0, 0)
          pyramidScore := fun _ _ _ pts => pts.length
          defaults :=
            { focalGuess := fun _ => 1, ppxGuess := fun _ => 0, ppyGuess := fun _ => 0
              aspectGuess := fun _ => 1, skewGuess := fun _ => 0 } }
        {} { focal_length := { is_set := true, value := 2 } } {} []
        {} []).2.1.focal_length_2 = 13 :=
  (estimateTwoViewInfo_branch_selection _ _ _ _ _ _ _).2.2 _ _ (by simp) rfl

/-- C4.  The RANSAC parameters assembled by the two branches: the error
threshold is the product of the two resolution-scaled pixel budgets
divided by the product of the two prior focal lengths in the calibrated
branch, and just the product of the budgets in the uncalibrated branch;
both branches set the failure probability to one minus the configured
expected confidence.  The final two conjuncts tie these parameter
records to the solver invocation `EstimateTwoViewInfo` performs. -/
theorem estimateTwoViewInfo_ransac_parameters (env : TwoViewEnv)
    (options : EstimateTwoViewInfoOptions)
    (intrinsics1 intrinsics2 : CameraIntrinsicsPrior)
    (correspondences : List FeatureCorrespondence)
    (twoview_info : TwoViewInfo) (inlier_indices : List ℕ) :
    (calibratedRansacOptions env options intrinsics1 intrinsics2).error_thresh =
      env.ComputeResolutionScaledThreshold options.max_sampson_error_pixels
          intrinsics1.image_width intrinsics1.image_height *
        env.ComputeResolutionScaledThreshold options.max_sampson_error_pixels
          intrinsics2.image_width intrinsics2.image_height /
        (intrinsics1.focal_length.value * intrinsics2.focal_length.value) ∧
    (uncalibratedRansacOptions env options intrinsics1 intrinsics2).error_thresh =
      env.ComputeResolutionScaledThreshold options.max_sampson_error_pixels
          intrinsics1.image_width intrinsics1.image_height *
        env.ComputeResolutionScaledThreshold options.max_sampson_error_pixels
          intrinsics2.image_width intrinsics2.image_height ∧
    (calibratedRansacOptions env options intrinsics1 intrinsics2).failure_probability =
      1 - options.expected_ransac_confidence ∧
    (uncalibratedRansacOptions env options intrinsics1 intrinsics2).failure_probability =
      1 - options.expected_ransac_confidence ∧
    (intrinsics1.focal_length.is_set = true ∧ intrinsics2.focal_length.is_set = true →
      (EstimateTwoViewInfo env options intrinsics1 intrinsics2 correspondences
          twoview_info inlier_indices).1 =
        (env.EstimateRelativePose options.ransac_type
            (calibratedRansacOptions env options intrinsics1 intrinsics2)
            (NormalizeFeatures env.defaults intrinsics1 intrinsics2
              correspondences)).isSome) ∧
    (¬(intrinsics1.focal_length.is_set = true ∧ intrinsics2.focal_length.is_set = true) →
      (EstimateTwoViewInfo env options intrinsics1 intrinsics2 correspondences
          twoview_info inlier_indices).1 =
        (env.EstimateUncalibratedRelativePose options.ransac_type
            (uncalibratedRansacOptions env options intrinsics1 intrinsics2)
            (NormalizeFeatures env.defaults intrinsics1 intrinsics2
              correspondences)).isSome) := by
  refine ⟨rfl, rfl, rfl, rfl, fun h => ?_, fun h => ?_⟩
  · rcases hsol : env.EstimateRelativePose options.ransac_type
        (calibratedRansacOptions env options intrinsics1 intrinsics2)
        (NormalizeFeatures env.defaults intrinsics1 intrinsics2 correspondences) with
      _ | ⟨rp, summary⟩ <;>
      simp [EstimateTwoViewInfo, EstimateTwoViewInfoCalibrated, h.1, h.2, hsol]
  · cases hb1 : intrinsics1.focal_length.is_set <;>
      cases hb2 : intrinsics2.focal_length.is_set <;>
      simp [hb1, hb2] at h ⊢ <;>
      rcases hsol : env.EstimateUncalibratedRelativePose options.ransac_type
        (uncalibratedRansacOptions env options intrinsics1 intrinsics2)
        (NormalizeFeatures env.defaults intrinsics1 intrinsics2 correspondences) with
        _ | ⟨rp, summary⟩ <;>
      simp [EstimateTwoViewInfo, EstimateTwoViewInfoUncalibrated, hb1, hb2, hsol]

/-- Witness for C4: a both-calibrated input on which the solver refuses;
the hypothesis of the calibrated linkage conjunct is discharged
concretely and the returned flag is `isSome none = false`. -/
theorem estimateTwoViewInfo_ransac_parameters_witness :
    (EstimateTwoViewInfo
        { ComputeResolutionScaledThreshold := fun t _ _ => t
          EstimateRelativePose := fun _ _ _ => none
          EstimateUncalibratedRelativePose := fun _ _ _ => none
          angleAxisOf := fun _ => (0, 0, 0)
          pyramidScore := fun _ _ _ pts => pts.length
          defaults :=
            { focalGuess := fun _ => 1, ppxGuess := fun _ => 0, ppyGuess := fun _ => 0
              aspectGuess := fun _ => 1, skewGuess := fun _ => 0 } }
        {} { focal_length := { is_set := true, value := 2 } }
        { focal_length := { is_set := true, value := 3 } } [] {} []).1 = false :=
  ((estimateTwoViewInfo_ransac_parameters _ {} _
    { focal_length := { is_set := true, value := 3 } } [] {} []).2.2.2.2.1
    (by decide)).trans rfl

/-- C10.  If at least one of the two priors lacks a set focal length,
`NormalizeFeatures` forces BOTH cameras' focal lengths to 1.0, so in the
mixed case the set side's numeric focal-length value is ignored: the
normalized correspondences do not change when either prior's focal value
changes (provided the abstract camera-default guesses do not read the
focal value, which the real ones do not). -/
theorem normalizeFeatures_forces_unit_focal (d : CameraDefaults)
    (prior1 prior2 : CameraIntrinsicsPrior)
    (correspondences : List FeatureCorrespondence)
    (h : ¬(prior1.focal_length.is_set = true ∧ prior2.focal_length.is_set = true))
    (hguess : ∀ p v,
      d.ppxGuess (setFocalValue p v) = d.ppxGuess p ∧
      d.ppyGuess (setFocalValue p v) = d.ppyGuess p ∧
      d.aspectGuess (setFocalValue p v) = d.aspectGuess p ∧
      d.skewGuess (setFocalValue p v) = d.skewGuess p) :
    (camerasForNormalization d prior1 prior2).1.focal_length = 1 ∧
    (camerasForNormalization d prior1 prior2).2.focal_length = 1 ∧
    (∀ v, NormalizeFeatures d (setFocalValue prior1 v) prior2 correspondences =
      NormalizeFeatures d prior1 prior2 correspondences) ∧
    (∀ v, NormalizeFeatures d prior1 (setFocalValue prior2 v) correspondences =
      NormalizeFeatures d prior1 prior2 correspondences) := by
  have hcam : ∀ p v, { SetFromCameraIntrinsicsPriors d (setFocalValue p v) with
      focal_length := 1 } =
      { SetFromCameraIntrinsicsPriors d p with focal_length := (1 : ℚ) } := by
    intro p v
    obtain ⟨hx, hy, ha, hs⟩ := hguess p v
    simp only [SetFromCameraIntrinsicsPriors, hx, hy, ha, hs]
    simp [setFocalValue]
  have hpair1 : ∀ v, camerasForNormalization d (setFocalValue prior1 v) prior2 =
      camerasForNormalization d prior1 prior2 := by
    intro v
    have hiss : (setFocalValue prior1 v).focal_length.is_set =
      prior1.focal_length.is_set := rfl
    cases hb1 : prior1.focal_length.is_set <;> cases hb2 : prior2.focal_length.is_set
    · simp only [camerasForNormalization, hiss, hb1, hb2]
      simp [hcam]
    · simp only [camerasForNormalization, hiss, hb1, hb2]
      simp [hcam]
    · simp only [camerasForNormalization, hiss, hb1, hb2]
      simp [hcam]
    · exact absurd ⟨hb1, hb2⟩ h
  have hpair2 : ∀ v, camerasForNormalization d prior1 (setFocalValue prior2 v) =
      camerasForNormalization d prior1 prior2 := by
    intro v
    have hiss : (setFocalValue prior2 v).focal_length.is_set =
      prior2.focal_length.is_set := rfl
    cases hb1 : prior1.focal_length.is_set <;> cases hb2 : prior2.focal_length.is_set
    · simp only [camerasForNormalization, hiss, hb1, hb2]
      simp [hcam]
    · simp only [camerasForNormalization, hiss, hb1, hb2]
      simp [hcam]
    · simp only [camerasForNormalization, hiss, hb1, hb2]
      simp [hcam]
    · exact absurd ⟨hb1, hb2⟩ h
  refine ⟨?_, ?_, ?_, ?_⟩
  · cases hb1 : prior1.focal_length.is_set <;> cases hb2 : prior2.focal_length.is_set
    · simp [camerasForNormalization, hb1, hb2]
    · simp [camerasForNormalization, hb1, hb2]
    · simp [camerasForNormalization, hb1, hb2]
    · exact absurd ⟨hb1, hb2⟩ h
  · cases hb1 : prior1.focal_length.is_set <;> cases hb2 : prior2.focal_length.is_set
    · simp [camerasForNormalization, hb1, hb2]
    · simp [camerasForNormalization, hb1, hb2]
    · simp [camerasForNormalization, hb1, hb2]
    · exact absurd ⟨hb1, hb2⟩ h
  · intro v
    simp only [NormalizeFeatures, hpair1 v]
  · intro v
    simp only [NormalizeFeatures, hpair2 v]

/-- Witness for C10: prior 1 has focal length 50 set, prior 2 has none;
with concrete constant guesses, both cameras normalize with focal
length 1 and the output is insensitive to the set focal value. -/
theorem normalizeFeatures_forces_unit_focal_witness :
    (camerasForNormalization
        { focalGuess := fun _ => 800, ppxGuess := fun _ => 320, ppyGuess := fun _ => 240
          aspectGuess := fun _ => 1, skewGuess := fun _ => 0 }
        { focal_length := { is_set := true, value := 50 } } {}).1.focal_length = 1 ∧
    (camerasForNormalization
        { focalGuess := fun _ => 800, ppxGuess := fun _ => 320, ppyGuess := fun _ => 240
          aspectGuess := fun _ => 1, skewGuess := fun _ => 0 }
        { focal_length := { is_set := true, value := 50 } } {}).2.focal_length = 1 ∧
    (∀ v, NormalizeFeatures
        { focalGuess := fun _ => 800, ppxGuess := fun _ => 320, ppyGuess := fun _ => 240
          aspectGuess := fun _ => 1, skewGuess := fun _ => 0 }
        (setFocalValue { focal_length := { is_set := true, value := 50 } } v) {}
        [{ feature1 := (321, 242), feature2 := (100, 200) }] =
      NormalizeFeatures
        { focalGuess := fun _ => 800, ppxGuess := fun _ => 320, ppyGuess := fun _ => 240
          aspectGuess := fun _ => 1, skewGuess := fun _ => 0 }
        { focal_length := { is_set := true, value := 50 } } {}
        [{ feature1 := (321, 242), feature2 := (100, 200) }]) ∧
    (∀ v, NormalizeFeatures
        { focalGuess := fun _ => 800, ppxGuess := fun _ => 320, ppyGuess := fun _ => 240
          aspectGuess := fun _ => 1, skewGuess := fun _ => 0 }
        { focal_length := { is_set := true, value := 50 } } (setFocalValue {} v)
        [{ feature1 := (321, 242), feature2 := (100, 200) }] =
      NormalizeFeatures
        { focalGuess := fun _ => 800, ppxGuess := fun _ => 320, ppyGuess := fun _ => 240
          aspectGuess := fun _ => 1, skewGuess := fun _ => 0 }
        { focal_length := { is_set := true, value := 50 } } {}
        [{ feature1 := (321, 242), feature2 := (100, 200) }]) :=
  normalizeFeatures_forces_unit_focal _ _ _ _ (by decide)
    (fun _ _ => ⟨rfl, rfl, rfl, rfl⟩)

/-- C1, observed divergence.  Both branches of the source compute
`twoview_info->visibility_score` from `*inlier_indices` (lines 183-184
and 243-244) BEFORE executing `*inlier_indices = summary.inliers;`
(lines 186 and 245), and `EstimateTwoViewInfo` clears `*inlier_indices`
on entry (line 260).  The stored score is therefore always that of an
empty inlier set, not of the solver inliers.  Concretely: both priors
calibrated with unknown (zero) image dimensions, the solver reports
inliers `[0, 1]`; the claim says the score is the inlier count 2, but
the stored score is 0 — while `num_verified_matches` is correctly 2 and
the returned inlier list is `[0, 1]`. -/
theorem estimateTwoViewInfo_visibility_score_stale :
    (EstimateTwoViewInfo
        { ComputeResolutionScaledThreshold := fun t _ _ => t
          EstimateRelativePose := fun _ _ _ =>
            some (⟨fun _ _ => 0, (0, 0, 0)⟩, ⟨[0, 1]⟩)
          EstimateUncalibratedRelativePose := fun _ _ _ => none
          angleAxisOf := fun _ => (0, 0, 0)
          pyramidScore := fun _ _ _ pts => pts.length
          defaults :=
            { focalGuess := fun _ => 1, ppxGuess := fun _ => 0, ppyGuess := fun _ => 0
              aspectGuess := fun _ => 1, skewGuess := fun _ => 0 } }
        {} { focal_length := { is_set := true, value := 2 } }
        { focal_length := { is_set := true, value := 3 } }
        [{ feature1 := (1, 2), feature2 := (3, 4) },
         { feature1 := (5, 6), feature2 := (7, 8) }]
        {} []) =
      (true,
        { rotation_2 := (0, 0, 0), position_2 := (0, 0, 0), focal_length_1 := 2
          focal_length_2 := 3, num_verified_matches := 2, visibility_score := 0 },
        [0, 1]) := by
  decide

/-! ## Helper lemmas for the pipeline claims -/

theorem capFeatures_eq_take (options : FEMOptions)
    (features : List (Keypoint × Descriptor)) :
    capFeatures options features = features.take options.max_num_features := by
  unfold capFeatures
  split
  · rfl
  · next h => exact (List.take_of_length_le (Nat.le_of_not_lt h)).symm

theorem mapFind_mapInsert_self (key : String) (value : α)
    (m : List (String × α)) : mapFind (mapInsert key value m) key = some value := by
  induction m with
  | nil => simp [mapInsert, mapFind]
  | cons kv rest ih =>
    obtain ⟨k, v⟩ := kv
    by_cases hk : k = key
    · simp [mapInsert, mapFind, hk]
    · simp [mapInsert, mapFind, hk, ih]

theorem mapFind_mapInsert_ne (key : String) (value : α)
    (m : List (String × α)) (q : String) (h : q ≠ key) :
    mapFind (mapInsert key value m) q = mapFind m q := by
  induction m with
  | nil => simp [mapInsert, mapFind, Ne.symm h]
  | cons kv rest ih =>
    obtain ⟨k, v⟩ := kv
    by_cases hk : k = key
    · subst hk
      simp [mapInsert, mapFind, Ne.symm h]
    · simp [mapInsert, mapFind, hk, ih]

theorem priorSetLE_refl (a : CameraIntrinsicsPrior) : priorSetLE a a :=
  ⟨id, id, id, id, id, id, id⟩

theorem priorSetLE_trans {a b c : CameraIntrinsicsPrior}
    (h1 : priorSetLE a b) (h2 : priorSetLE b c) : priorSetLE a c :=
  ⟨fun h => h2.1 (h1.1 h), fun h => h2.2.1 (h1.2.1 h),
   fun h => h2.2.2.1 (h1.2.2.1 h), fun h => h2.2.2.2.1 (h1.2.2.2.1 h),
   fun h => h2.2.2.2.2.1 (h1.2.2.2.2.1 h),
   fun h => h2.2.2.2.2.2.1 (h1.2.2.2.2.2.1 h),
   fun h => h2.2.2.2.2.2.2 (h1.2.2.2.2.2.2 h)⟩

/-- When the EXIF reader succeeds, `resolveCalibration` succeeds, its
resulting map holds the resolved prior under the image's key, and no
other key changes. -/
theorem resolveCalibration_some (env : PipelineEnv) (options : FEMOptions)
    (m : List (String × CameraIntrinsicsPrior)) (p : String)
    (hexif : ∀ i, (env.ExtractEXIFMetadata p i).isSome = true) :
    ∃ intr m1, resolveCalibration env options m p = some (intr, m1) ∧
      mapFind m1 p = some intr ∧
      (∀ q, q ≠ p → mapFind m1 q = mapFind m q) := by
  rcases hres : resolveCalibration env options m p with _ | ⟨intr, m1⟩
  · exfalso
    unfold resolveCalibration at hres
    by_cases hset : ((mapFind m p).getD {}).focal_length.is_set = true
    · rw [if_pos hset] at hres
      cases hres
    · rw [if_neg hset] at hres
      rcases hx : env.ExtractEXIFMetadata p ((mapFind m p).getD {}) with _ | i1
      · have hs := hexif ((mapFind m p).getD {})
        rw [hx] at hs
        simp at hs
      · rw [hx] at hres
        cases hres
  · unfold resolveCalibration at hres
    by_cases hset : ((mapFind m p).getD {}).focal_length.is_set = true
    · rw [if_pos hset] at hres
      simp only [Option.some.injEq, Prod.mk.injEq] at hres
      obtain ⟨h1, h2⟩ := hres
      subst h2
      refine ⟨intr, m, rfl, ?_, fun q _ => rfl⟩
      rcases hfind : mapFind m p with _ | pr
      · rw [hfind] at hset
        exact absurd hset (by decide)
      · rw [hfind, Option.getD_some] at h1
        rw [h1]
    · rw [if_neg hset] at hres
      rcases hx : env.ExtractEXIFMetadata p ((mapFind m p).getD {}) with _ | i1
      · rw [hx] at hres
        cases hres
      · rw [hx] at hres
        simp only [Option.some.injEq, Prod.mk.injEq] at hres
        obtain ⟨h1, h2⟩ := hres
        subst h1
        subst h2
        exact ⟨_, _, rfl, mapFind_mapInsert_self _ _ _,
          fun q hq => mapFind_mapInsert_ne _ _ _ _ hq⟩

/-- If the EXIF reader never unsets a set flag, neither does
`resolveCalibration`: every map entry evolves monotonically. -/
theorem resolveCalibration_monotone (env : PipelineEnv) (options : FEMOptions)
    (m : List (String × CameraIntrinsicsPrior)) (p : String)
    (intr : CameraIntrinsicsPrior) (m1 : List (String × CameraIntrinsicsPrior))
    (hmono : ∀ i i', env.ExtractEXIFMetadata p i = some i' → priorSetLE i i')
    (hres : resolveCalibration env options m p = some (intr, m1)) :
    ∀ q pr, mapFind m q = some pr →
      ∃ pr', mapFind m1 q = some pr' ∧ priorSetLE pr pr' := by
  unfold resolveCalibration at hres
  by_cases hset : ((mapFind m p).getD {}).focal_length.is_set = true
  · rw [if_pos hset] at hres
    simp only [Option.some.injEq, Prod.mk.injEq] at hres
    obtain ⟨-, h2⟩ := hres
    subst h2
    intro q pr hq
    exact ⟨pr, hq, priorSetLE_refl pr⟩
  · rw [if_neg hset] at hres
    rcases hx : env.ExtractEXIFMetadata p ((mapFind m p).getD {}) with _ | i1
    · rw [hx] at hres
      cases hres
    · rw [hx] at hres
      simp only [Option.some.injEq, Prod.mk.injEq] at hres
      obtain ⟨h1, h2⟩ := hres
      subst h1
      subst h2
      have hle1 : priorSetLE ((mapFind m p).getD {}) i1 := hmono _ _ hx
      intro q pr hq
      by_cases hqp : q = p
      · subst hqp
        refine ⟨_, mapFind_mapInsert_self _ _ _, ?_⟩
        have hpr : pr = (mapFind m q).getD {} := by rw [hq, Option.getD_some]
        refine hpr ▸ priorSetLE_trans hle1 ?_
        split
        · exact ⟨fun _ => rfl, id, id, id, id, id, id⟩
        · exact priorSetLE_refl i1
      · exact ⟨pr, by rw [mapFind_mapInsert_ne _ _ _ _ hqp]; exact hq,
          priorSetLE_refl pr⟩

/-- `ExtractFeatures` is fatal only on a mask/image dimension mismatch:
if any associated nonempty mask matches the image's dimensions, it
returns a (possibly empty) feature list. -/
theorem extractFeatures_isSome (env : PipelineEnv) (options : FEMOptions)
    (image_filepath imagemask_filepath : String)
    (h : imagemask_filepath.length > 0 →
      env.maskDims imagemask_filepath = env.imageDims image_filepath) :
    (ExtractFeatures env options image_filepath imagemask_filepath).isSome = true := by
  rcases hdet : env.DetectAndExtractDescriptors image_filepath with _ | feats
  · simp [ExtractFeatures, hdet]
  · by_cases hm : imagemask_filepath.length > 0
    · simp [ExtractFeatures, hdet, hm, h hm]
    · simp [ExtractFeatures, hdet, hm]

/-- `ProcessImage` never touches the calibration map after
`resolveCalibration`: its final map is the resolved one. -/
theorem processImage_resolve (env : PipelineEnv) (options : FEMOptions)
    (image_masks : List (String × String))
    (m : List (String × CameraIntrinsicsPrior)) (p : String)
    (m1 : List (String × CameraIntrinsicsPrior)) (regs : List MatcherRegistration)
    (hPI : ProcessImage env options image_masks m p = some (m1, regs)) :
    ∃ intr, resolveCalibration env options m p = some (intr, m1) := by
  unfold ProcessImage at hPI
  split at hPI
  · cases hPI
  · next intr mm heq =>
    split at hPI
    · simp only [Option.some.injEq, Prod.mk.injEq] at hPI
      exact ⟨intr, by rw [heq, hPI.1]⟩
    · dsimp only at hPI
      split at hPI
      · simp only [Option.some.injEq, Prod.mk.injEq] at hPI
        exact ⟨intr, by rw [heq, hPI.1]⟩
      · split at hPI
        · cases hPI
        · simp only [Option.some.injEq, Prod.mk.injEq] at hPI
          exact ⟨intr, by rw [heq, hPI.1]⟩

/-- Under a well-behaved EXIF reader and consistent mask dimensions,
`ProcessImage` succeeds, its final map has an entry for the processed
image, and every other key is untouched. -/
theorem processImage_some (env : PipelineEnv) (options : FEMOptions)
    (image_masks : List (String × String))
    (m : List (String × CameraIntrinsicsPrior)) (p : String)
    (hexif : ∀ i, (env.ExtractEXIFMetadata p i).isSome = true)
    (hmask : ∀ mp, mapFind image_masks p = some mp → mp.length > 0 →
      env.maskDims mp = env.imageDims p) :
    ∃ m1 regs, ProcessImage env options image_masks m p = some (m1, regs) ∧
      (mapFind m1 p).isSome = true ∧
      (∀ q, q ≠ p → mapFind m1 q = mapFind m q) := by
  obtain ⟨intr, m1, hres, hentry, hothers⟩ :=
    resolveCalibration_some env options m p hexif
  have hEF : (ExtractFeatures env options p
      ((mapFind image_masks p).getD "")).isSome = true := by
    apply extractFeatures_isSome
    intro hlen
    rcases hmp : mapFind image_masks p with _ | mp
    · rw [hmp] at hlen
      simp at hlen
    · rw [hmp] at hlen
      rw [Option.getD_some]
      exact hmask mp hmp (by simpa using hlen)
  have hPIsome : (ProcessImage env options image_masks m p).isSome = true := by
    unfold ProcessImage
    rw [hres]
    dsimp only
    split
    · rfl
    · split
      · rfl
      · split
        · next heq2 =>
          rw [heq2] at hEF
          simp at hEF
        · rfl
  obtain ⟨res, hPI⟩ := Option.isSome_iff_exists.mp hPIsome
  obtain ⟨m2, regs⟩ := res
  obtain ⟨intr2, hres2⟩ :=
    processImage_resolve env options image_masks m p m2 regs hPI
  rw [hres] at hres2
  simp only [Option.some.injEq, Prod.mk.injEq] at hres2
  obtain ⟨-, h2⟩ := hres2
  subst h2
  exact ⟨m1, regs, hPI, by rw [hentry]; rfl, hothers⟩

/-- `ProcessImage` never unsets a set calibration field of any map
entry, provided the EXIF reader does not. -/
theorem processImage_monotone (env : PipelineEnv) (options : FEMOptions)
    (image_masks : List (String × String))
    (m : List (String × CameraIntrinsicsPrior)) (p : String)
    (m1 : List (String × CameraIntrinsicsPrior)) (regs : List MatcherRegistration)
    (hmono : ∀ i i', env.ExtractEXIFMetadata p i = some i' → priorSetLE i i')
    (hPI : ProcessImage env options image_masks m p = some (m1, regs)) :
    ∀ q pr, mapFind m q = some pr →
      ∃ pr', mapFind m1 q = some pr' ∧ priorSetLE pr pr' := by
  obtain ⟨intr, hres⟩ := processImage_resolve env options image_masks m p m1 regs hPI
  exact resolveCalibration_monotone env options m p intr m1 hmono hres

/-- The whole extraction loop succeeds under a well-behaved EXIF reader
and consistent mask dimensions; entries present at the start stay
present, and every processed (existing-file) image gains an entry. -/
theorem processLoop_total (env : PipelineEnv) (options : FEMOptions)
    (image_masks : List (String × String))
    (hexif : ∀ p i, (env.ExtractEXIFMetadata p i).isSome = true)
    (hmask : ∀ p mp, mapFind image_masks p = some mp → mp.length > 0 →
      env.maskDims mp = env.imageDims p) :
    ∀ (l : List String) (m : List (String × CameraIntrinsicsPrior)),
      ∃ m1 regs, processLoop env options image_masks l m = some (m1, regs) ∧
        (∀ q, (mapFind m q).isSome = true → (mapFind m1 q).isSome = true) ∧
        (∀ p, p ∈ l → env.FileExists p = true → (mapFind m1 p).isSome = true) := by
  intro l
  induction l with
  | nil =>
    intro m
    exact ⟨m, [], rfl, fun _ h => h, fun p hp => absurd hp (List.not_mem_nil p)⟩
  | cons p rest ih =>
    intro m
    by_cases hex : env.FileExists p = true
    · obtain ⟨m1, regs1, hPI, hsome1, hoth1⟩ :=
        processImage_some env options image_masks m p (hexif p) (hmask p)
      obtain ⟨m2, regs2, hPL, hmono2, hmem2⟩ := ih m1
      refine ⟨m2, regs1 ++ regs2, ?_, ?_, ?_⟩
      · simp [processLoop, hex, hPI, hPL]
      · intro q hq
        apply hmono2
        by_cases hqp : q = p
        · subst hqp
          exact hsome1
        · rw [hoth1 q hqp]
          exact hq
      · intro r hr hexr
        rcases List.mem_cons.mp hr with rfl | hrest
        · exact hmono2 r hsome1
        · exact hmem2 r hrest hexr
    · obtain ⟨m2, regs2, hPL, hmono2, hmem2⟩ := ih m
      refine ⟨m2, regs2, ?_, hmono2, ?_⟩
      · simp [processLoop, hex, hPL]
      · intro r hr hexr
        rcases List.mem_cons.mp hr with rfl | hrest
        · exact absurd hexr hex
        · exact hmem2 r hrest hexr

/-- When every listed image has a map entry, the `FindOrDie` loop
succeeds and returns exactly the lookups in registration order. -/
theorem collectPriors_eq_map (m : List (String × CameraIntrinsicsPrior)) :
    ∀ l : List String, (∀ p ∈ l, (mapFind m p).isSome = true) →
      collectPriors m l = some (l.map fun p => (mapFind m p).getD {}) := by
  intro l
  induction l with
  | nil => intro _; rfl
  | cons p rest ih =>
    intro h
    have hp := h p (List.mem_cons_self p rest)
    rcases hfind : mapFind m p with _ | v
    · rw [hfind] at hp
      simp at hp
    · simp [collectPriors, hfind,
        ih (fun q hq => h q (List.mem_cons_of_mem p hq))]

/-! ## Pipeline claims -/

/-- C8.  With an associated mask of matching dimensions: every detected
keypoint whose bilinearly-sampled mask value is below 0.5 is discarded
(with its descriptor — features are keypoint/descriptor pairs erased at
the same index), every keypoint with mask value 1.0 survives the
filtering, survivors keep detection order (the kept list is a sublist of
the detected list), and the final output is the first
`max_num_features` survivors in detection order. -/
theorem extractFeatures_mask_filtering (env : PipelineEnv) (options : FEMOptions)
    (image_filepath imagemask_filepath : String)
    (features : List (Keypoint × Descriptor))
    (hmask : imagemask_filepath.length > 0)
    (hdims : env.maskDims imagemask_filepath = env.imageDims image_filepath)
    (hdet : env.DetectAndExtractDescriptors image_filepath = some features) :
    ∃ kept, kept = features.filter (fun f =>
        ¬(env.BilinearInterpolate imagemask_filepath f.1.x f.1.y < kMaskThreshold)) ∧
      ExtractFeatures env options image_filepath imagemask_filepath =
        some (kept.take options.max_num_features) ∧
      (∀ f ∈ features,
        env.BilinearInterpolate imagemask_filepath f.1.x f.1.y < 1 / 2 → f ∉ kept) ∧
      (∀ f ∈ features,
        env.BilinearInterpolate imagemask_filepath f.1.x f.1.y = 1 → f ∈ kept) ∧
      kept.Sublist features := by
  refine ⟨_, rfl, ?_, ?_, ?_, List.filter_sublist _⟩
  · simp [ExtractFeatures, hdet, hmask, hdims, capFeatures_eq_take]
  · intro f hf hlt hmem
    rw [List.mem_filter] at hmem
    exact of_decide_eq_true hmem.2 (by simpa [kMaskThreshold] using hlt)
  · intro f hf heq1
    rw [List.mem_filter]
    refine ⟨hf, decide_eq_true ?_⟩
    rw [heq1]
    norm_num [kMaskThreshold]

set_option maxHeartbeats 1000000 in
/-- Witness for C8: two detected keypoints; the mask (sampled as the
keypoint's x coordinate) gives 0 for the first and 1 for the second, so
only the second survives. -/
theorem extractFeatures_mask_filtering_witness :
    ∃ kept, kept = [((⟨0, 5⟩ : Keypoint), ([1] : Descriptor)), (⟨1, 6⟩, [2])].filter
        (fun f => ¬((fun (_ : String) (x _ : ℚ) => x) "mask" f.1.x f.1.y <
          kMaskThreshold)) ∧
      ExtractFeatures
        { FileExists := fun _ => false
          GetFilenameFromFilepath := fun s => s
          ExtractEXIFMetadata := fun _ i => some i
          DetectAndExtractDescriptors := fun _ => some [(⟨0, 5⟩, [1]), (⟨1, 6⟩, [2])]
          imageDims := fun _ => (4, 4)
          maskDims := fun _ => (4, 4)
          BilinearInterpolate := fun _ x _ => x
          MatchImages := fun _ => [] } {} "img" "mask" =
        some (kept.take (FEMOptions.max_num_features {})) ∧
      (∀ f ∈ [((⟨0, 5⟩ : Keypoint), ([1] : Descriptor)), (⟨1, 6⟩, [2])],
        (fun (_ : String) (x _ : ℚ) => x) "mask" f.1.x f.1.y < 1 / 2 → f ∉ kept) ∧
      (∀ f ∈ [((⟨0, 5⟩ : Keypoint), ([1] : Descriptor)), (⟨1, 6⟩, [2])],
        (fun (_ : String) (x _ : ℚ) => x) "mask" f.1.x f.1.y = 1 → f ∈ kept) ∧
      kept.Sublist [(⟨0, 5⟩, [1]), (⟨1, 6⟩, [2])] :=
  extractFeatures_mask_filtering
    { FileExists := fun _ => false
      GetFilenameFromFilepath := fun s => s
      ExtractEXIFMetadata := fun _ i => some i
      DetectAndExtractDescriptors := fun _ => some [(⟨0, 5⟩, [1]), (⟨1, 6⟩, [2])]
      imageDims := fun _ => (4, 4)
      maskDims := fun _ => (4, 4)
      BilinearInterpolate := fun _ x _ => x
      MatchImages := fun _ => [] } {} "img" "mask"
    [(⟨0, 5⟩, [1]), (⟨1, 6⟩, [2])] (by decide) rfl rfl

/-- C7.  A failed descriptor extraction is non-fatal: `ProcessImage`
still completes, and the image is handed to the matcher with an EMPTY
feature list, so it can contribute no features (and hence no matches) to
matching; the surrounding loop continues with the rest of the batch. -/
theorem processImage_extraction_failure_nonfatal (env : PipelineEnv)
    (options : FEMOptions) (image_masks : List (String × String))
    (intrinsicsMap : List (String × CameraIntrinsicsPrior))
    (image_filepath : String) (intrinsics : CameraIntrinsicsPrior)
    (intrinsicsMap1 : List (String × CameraIntrinsicsPrior))
    (hres : resolveCalibration env options intrinsicsMap image_filepath =
      some (intrinsics, intrinsicsMap1))
    (hcal : ¬(options.only_calibrated_views = true ∧
      ¬intrinsics.focal_length.is_set = true))
    (hnocache : ¬(options.match_out_of_core = true ∧
      env.FileExists (appendTrailingSlashIfNeeded
        options.keypoints_and_descriptors_output_dir ++
        env.GetFilenameFromFilepath image_filepath ++ ".features") = true))
    (hfail : env.DetectAndExtractDescriptors image_filepath = none) :
    ProcessImage env options image_masks intrinsicsMap image_filepath =
      some (intrinsicsMap1,
        [.full (env.GetFilenameFromFilepath image_filepath) [] intrinsics]) ∧
    (∀ rest, processLoop env options image_masks
        (image_filepath :: rest) intrinsicsMap =
      (if env.FileExists image_filepath = true then
        (processLoop env options image_masks rest intrinsicsMap1).map
          (fun r => (r.1, MatcherRegistration.full
            (env.GetFilenameFromFilepath image_filepath) [] intrinsics :: r.2))
      else processLoop env options image_masks rest intrinsicsMap)) := by
  have hEF : ExtractFeatures env options image_filepath
      ((mapFind image_masks image_filepath).getD "") = some [] := by
    simp [ExtractFeatures, hfail]
  have hPI : ProcessImage env options image_masks intrinsicsMap image_filepath =
      some (intrinsicsMap1,
        [.full (env.GetFilenameFromFilepath image_filepath) [] intrinsics]) := by
    unfold ProcessImage
    rw [hres]
    dsimp only
    rw [if_neg hcal, if_neg hnocache, hEF]
  refine ⟨hPI, fun rest => ?_⟩
  by_cases hex : env.FileExists image_filepath = true
  · rw [if_pos hex]
    rcases hPL : processLoop env options image_masks rest intrinsicsMap1 with
      _ | ⟨m2, regs2⟩ <;>
      simp [processLoop, hex, hPI, hPL]
  · rw [if_neg hex]
    simp [processLoop, hex]

/-- Witness for C7: extraction fails on the single image; the EXIF
reader resolves focal length 7, the map gains that prior, and the
matcher receives the image with no features. -/
theorem processImage_extraction_failure_nonfatal_witness :
    ProcessImage
      { FileExists := fun _ => false
        GetFilenameFromFilepath := fun s => s
        ExtractEXIFMetadata := fun _ i =>
          some { i with focal_length := { is_set := true, value := 7 } }
        DetectAndExtractDescriptors := fun _ => none
        imageDims := fun _ => (4, 4)
        maskDims := fun _ => (4, 4)
        BilinearInterpolate := fun _ _ _ => 1
        MatchImages := fun _ => [] } {} [] [] "img" =
      some ([("img", { focal_length := { is_set := true, value := 7 } })],
        [.full "img" [] { focal_length := { is_set := true, value := 7 } }]) ∧
    (∀ rest, processLoop
      { FileExists := fun _ => false
        GetFilenameFromFilepath := fun s => s
        ExtractEXIFMetadata := fun _ i =>
          some { i with focal_length := { is_set := true, value := 7 } }
        DetectAndExtractDescriptors := fun _ => none
        imageDims := fun _ => (4, 4)
        maskDims := fun _ => (4, 4)
        BilinearInterpolate := fun _ _ _ => 1
        MatchImages := fun _ => [] } {} [] ("img" :: rest) [] =
      (if (fun (_ : String) => false) "img" = true then
        (processLoop
          { FileExists := fun _ => false
            GetFilenameFromFilepath := fun s => s
            ExtractEXIFMetadata := fun _ i =>
              some { i with focal_length := { is_set := true, value := 7 } }
            DetectAndExtractDescriptors := fun _ => none
            imageDims := fun _ => (4, 4)
            maskDims := fun _ => (4, 4)
            BilinearInterpolate := fun _ _ _ => 1
            MatchImages := fun _ => [] } {} [] rest
            [("img", { focal_length := { is_set := true, value := 7 } })]).map
          (fun r => (r.1, MatcherRegistration.full "img" []
            { focal_length := { is_set := true, value := 7 } } :: r.2))
      else processLoop
        { FileExists := fun _ => false
          GetFilenameFromFilepath := fun s => s
          ExtractEXIFMetadata := fun _ i =>
            some { i with focal_length := { is_set := true, value := 7 } }
          DetectAndExtractDescriptors := fun _ => none
          imageDims := fun _ => (4, 4)
          maskDims := fun _ => (4, 4)
          BilinearInterpolate := fun _ _ _ => 1
          MatchImages := fun _ => [] } {} [] rest [])) :=
  processImage_extraction_failure_nonfatal _ {} [] [] "img"
    { focal_length := { is_set := true, value := 7 } }
    [("img", { focal_length := { is_set := true, value := 7 } })] rfl
    (by decide) (by decide) rfl

/-- C6 (amended).  When out-of-core matching is enabled and the cache
file `<cache_dir>/<image_filename>.features` exists, and the image is
not excluded by the only-calibrated-views policy, `ProcessImage` skips
descriptor extraction entirely and registers the image (filename plus
resolved calibration prior) with the matcher; calibration resolution
still ran (the returned map is the resolved one). -/
theorem processImage_cache_hit_skips_extraction (env : PipelineEnv)
    (options : FEMOptions) (image_masks : List (String × String))
    (intrinsicsMap : List (String × CameraIntrinsicsPrior))
    (image_filepath : String) (intrinsics : CameraIntrinsicsPrior)
    (intrinsicsMap1 : List (String × CameraIntrinsicsPrior))
    (hres : resolveCalibration env options intrinsicsMap image_filepath =
      some (intrinsics, intrinsicsMap1))
    (hcal : ¬(options.only_calibrated_views = true ∧
      ¬intrinsics.focal_length.is_set = true))
    (hooc : options.match_out_of_core = true)
    (hcache : env.FileExists (appendTrailingSlashIfNeeded
      options.keypoints_and_descriptors_output_dir ++
      env.GetFilenameFromFilepath image_filepath ++ ".features") = true) :
    ProcessImage env options image_masks intrinsicsMap image_filepath =
      some (intrinsicsMap1,
        [.cached (env.GetFilenameFromFilepath image_filepath) intrinsics]) := by
  unfold ProcessImage
  rw [hres]
  dsimp only
  rw [if_neg hcal, if_pos ⟨hooc, hcache⟩]

/-- Witness for C6: out-of-core matching on, the cache file reported
present, EXIF resolves focal length 7; the single registration is the
cached form (no extraction), even though the descriptor extractor would
have produced a feature. -/
theorem processImage_cache_hit_skips_extraction_witness :
    ProcessImage
      { FileExists := fun _ => true
        GetFilenameFromFilepath := fun s => s
        ExtractEXIFMetadata := fun _ i =>
          some { i with focal_length := { is_set := true, value := 7 } }
        DetectAndExtractDescriptors := fun _ => some [(⟨3, 4⟩, [9])]
        imageDims := fun _ => (4, 4)
        maskDims := fun _ => (4, 4)
        BilinearInterpolate := fun _ _ _ => 1
        MatchImages := fun _ => [] }
      { match_out_of_core := true } [] [] "img" =
      some ([("img", { focal_length := { is_set := true, value := 7 } })],
        [.cached "img" { focal_length := { is_set := true, value := 7 } }]) :=
  processImage_cache_hit_skips_extraction _ { match_out_of_core := true } [] []
    "img" { focal_length := { is_set := true, value := 7 } }
    [("img", { focal_length := { is_set := true, value := 7 } })] rfl
    (by decide) rfl rfl

/-- C6, counterexample to the claim as stated.  The mere existence of
the cache file does NOT cause the skip: when `match_out_of_core` is
disabled (the default), `ProcessImage` extracts descriptors and performs
a full registration even though `FileExists` answers true for the cache
path.  Here the environment reports every file (including
`img.features`) as existing, yet the registration carries the extracted
feature rather than the cached form. -/
theorem processImage_cache_without_out_of_core_counterexample :
    PipelineEnv.FileExists
      { FileExists := fun _ => true
        GetFilenameFromFilepath := fun s => s
        ExtractEXIFMetadata := fun _ i =>
          some { i with focal_length := { is_set := true, value := 7 } }
        DetectAndExtractDescriptors := fun _ => some [(⟨3, 4⟩, [9])]
        imageDims := fun _ => (4, 4)
        maskDims := fun _ => (4, 4)
        BilinearInterpolate := fun _ _ _ => 1
        MatchImages := fun _ => [] } ("img" ++ ".features") = true ∧
    ProcessImage
      { FileExists := fun _ => true
        GetFilenameFromFilepath := fun s => s
        ExtractEXIFMetadata := fun _ i =>
          some { i with focal_length := { is_set := true, value := 7 } }
        DetectAndExtractDescriptors := fun _ => some [(⟨3, 4⟩, [9])]
        imageDims := fun _ => (4, 4)
        maskDims := fun _ => (4, 4)
        BilinearInterpolate := fun _ _ _ => 1
        MatchImages := fun _ => [] } {} [] [] "img" =
      some ([("img", { focal_length := { is_set := true, value := 7 } })],
        [.full "img" [(⟨3, 4⟩, [9])]
          { focal_length := { is_set := true, value := 7 } }]) :=
  ⟨rfl, rfl⟩

/-- C5, counterexample to the claim as stated.  A single registered
image whose file is missing and that was registered WITHOUT a
calibration prior: the extraction loop skips it, but the output
assembly then hits `FindOrDie` on a key absent from the calibration map
and aborts the whole batch (`none`), so `ExtractAndMatchFeatures` does
NOT complete with an aligned priors vector. -/
theorem extractAndMatchFeatures_missing_file_counterexample :
    ExtractAndMatchFeatures
      { FileExists := fun _ => false
        GetFilenameFromFilepath := fun s => s
        ExtractEXIFMetadata := fun _ i => some i
        DetectAndExtractDescriptors := fun _ => some []
        imageDims := fun _ => (4, 4)
        maskDims := fun _ => (4, 4)
        BilinearInterpolate := fun _ _ _ => 1
        MatchImages := fun _ => [] } {} (AddImage {} "a.jpg") = none :=
  rfl

/-- C5 (amended).  Missing-file images are skipped by the submission
loop without being processed (first conjunct), and provided every
missing-file image has an entry in the calibration map at run start
(e.g. it was registered with a caller-supplied prior) — and the
collaborators behave (EXIF succeeds, any nonempty mask matches its
image's dimensions) — the run completes: the priors vector is exactly
the final calibration map read out in registration order,
element-for-element, together with the matcher's results over
everything registered. -/
theorem extractAndMatchFeatures_missing_file_resilience (env : PipelineEnv)
    (options : FEMOptions) (st : FEMState)
    (hmissing : ∀ p ∈ st.image_filepaths, env.FileExists p = false →
      (mapFind st.intrinsics p).isSome = true)
    (hexif : ∀ p i, (env.ExtractEXIFMetadata p i).isSome = true)
    (hmaskdims : ∀ p mp, mapFind st.image_masks p = some mp → mp.length > 0 →
      env.maskDims mp = env.imageDims p) :
    (∀ (p : String) (rest : List String) (m : List (String × CameraIntrinsicsPrior)),
      env.FileExists p = false →
      processLoop env options st.image_masks (p :: rest) m =
        processLoop env options st.image_masks rest m) ∧
    ∃ intrinsicsMap regs,
      processLoop env options st.image_masks st.image_filepaths st.intrinsics =
        some (intrinsicsMap, regs) ∧
      ExtractAndMatchFeatures env options st =
        some (st.image_filepaths.map fun p => (mapFind intrinsicsMap p).getD {},
          env.MatchImages regs) := by
  refine ⟨fun p rest m h => by simp [processLoop, h], ?_⟩
  obtain ⟨m1, regs, hPL, hmono, hmem⟩ :=
    processLoop_total env options st.image_masks hexif hmaskdims
      st.image_filepaths st.intrinsics
  have hall : ∀ p ∈ st.image_filepaths, (mapFind m1 p).isSome = true := by
    intro p hp
    by_cases hex : env.FileExists p = true
    · exact hmem p hp hex
    · refine hmono p (hmissing p hp ?_)
      revert hex
      cases env.FileExists p <;> simp
  refine ⟨m1, regs, hPL, ?_⟩
  simp only [ExtractAndMatchFeatures, hPL,
    collectPriors_eq_map m1 st.image_filepaths hall]

/-- Witness for C5: two registered images, the first missing on disk
but registered with a caller prior (focal length 5 set), the second
present; the run completes with a two-entry priors vector. -/
theorem extractAndMatchFeatures_missing_file_resilience_witness :
    (∀ (p : String) (rest : List String) (m : List (String × CameraIntrinsicsPrior)),
      PipelineEnv.FileExists
        { FileExists := fun q => q = "b.jpg"
          GetFilenameFromFilepath := fun s => s
          ExtractEXIFMetadata := fun _ i =>
            some { i with focal_length := { is_set := true, value := 7 } }
          DetectAndExtractDescriptors := fun _ => some []
          imageDims := fun _ => (4, 4)
          maskDims := fun _ => (4, 4)
          BilinearInterpolate := fun _ _ _ => 1
          MatchImages := fun _ => [] } p = false →
      processLoop
        { FileExists := fun q => q = "b.jpg"
          GetFilenameFromFilepath := fun s => s
          ExtractEXIFMetadata := fun _ i =>
            some { i with focal_length := { is_set := true, value := 7 } }
          DetectAndExtractDescriptors := fun _ => some []
          imageDims := fun _ => (4, 4)
          maskDims := fun _ => (4, 4)
          BilinearInterpolate := fun _ _ _ => 1
          MatchImages := fun _ => [] } {} [] (p :: rest) m =
        processLoop
          { FileExists := fun q => q = "b.jpg"
            GetFilenameFromFilepath := fun s => s
            ExtractEXIFMetadata := fun _ i =>
              some { i with focal_length := { is_set := true, value := 7 } }
            DetectAndExtractDescriptors := fun _ => some []
            imageDims := fun _ => (4, 4)
            maskDims := fun _ => (4, 4)
            BilinearInterpolate := fun _ _ _ => 1
            MatchImages := fun _ => [] } {} [] rest m) ∧
    ∃ intrinsicsMap regs,
      processLoop
        { FileExists := fun q => q = "b.jpg"
          GetFilenameFromFilepath := fun s => s
          ExtractEXIFMetadata := fun _ i =>
            some { i with focal_length := { is_set := true, value := 7 } }
          DetectAndExtractDescriptors := fun _ => some []
          imageDims := fun _ => (4, 4)
          maskDims := fun _ => (4, 4)
          BilinearInterpolate := fun _ _ _ => 1
          MatchImages := fun _ => [] } {} []
        ["a.jpg", "b.jpg"]
        [("a.jpg", { focal_length := { is_set := true, value := 5 } })] =
        some (intrinsicsMap, regs) ∧
      ExtractAndMatchFeatures
        { FileExists := fun q => q = "b.jpg"
          GetFilenameFromFilepath := fun s => s
          ExtractEXIFMetadata := fun _ i =>
            some { i with focal_length := { is_set := true, value := 7 } }
          DetectAndExtractDescriptors := fun _ => some []
          imageDims := fun _ => (4, 4)
          maskDims := fun _ => (4, 4)
          BilinearInterpolate := fun _ _ _ => 1
          MatchImages := fun _ => [] } {}
        (AddImage (AddImageWithCalibration {} "a.jpg"
          { focal_length := { is_set := true, value := 5 } }) "b.jpg") =
        some (["a.jpg", "b.jpg"].map fun p => (mapFind intrinsicsMap p).getD {},
          (fun (_ : List MatcherRegistration) => ([] : List ImagePairMatch)) regs) :=
  extractAndMatchFeatures_missing_file_resilience _ {}
    (AddImage (AddImageWithCalibration {} "a.jpg"
      { focal_length := { is_set := true, value := 5 } }) "b.jpg")
    (by decide) (fun _ _ => rfl) (fun p mp h => by simp [mapFind] at h)

/-- C9.  Throughout a run of the extraction loop, no operation of the
pipeline unsets a previously set field of any image's calibration prior
in the shared map, provided the EXIF collaborator itself only adds
fields (it starts from the stored prior and writes back a superset; the
heuristic fallback only sets the focal-length flag): every entry present
at any point evolves into one whose set-flags are a superset. -/
theorem pipeline_never_unsets_calibration_fields (env : PipelineEnv)
    (options : FEMOptions) (image_masks : List (String × String))
    (hmono : ∀ p i i', env.ExtractEXIFMetadata p i = some i' → priorSetLE i i') :
    ∀ (l : List String) (m m1 : List (String × CameraIntrinsicsPrior))
      (regs : List MatcherRegistration),
      processLoop env options image_masks l m = some (m1, regs) →
      ∀ q pr, mapFind m q = some pr →
        ∃ pr', mapFind m1 q = some pr' ∧ priorSetLE pr pr' := by
  intro l
  induction l with
  | nil =>
    intro m m1 regs h q pr hq
    simp only [processLoop, Option.some.injEq, Prod.mk.injEq] at h
    obtain ⟨h1, -⟩ := h
    subst h1
    exact ⟨pr, hq, priorSetLE_refl pr⟩
  | cons p rest ih =>
    intro m m1 regs h q pr hq
    simp only [processLoop] at h
    split at h
    · split at h
      · cases h
      · next mm regs1 hPI =>
        split at h
        · cases h
        · next m2 regs2 hPL =>
          simp only [Option.some.injEq, Prod.mk.injEq] at h
          obtain ⟨h1, -⟩ := h
          subst h1
          obtain ⟨pr1, hpr1, hle1⟩ := processImage_monotone env options
            image_masks m p mm regs1 (hmono p) hPI q pr hq
          obtain ⟨pr2, hpr2, hle2⟩ := ih mm m2 regs2 hPL q pr1 hpr1
          exact ⟨pr2, hpr2, priorSetLE_trans hle1 hle2⟩
    · exact ih m m1 regs h q pr hq

/-- Witness for C9: one image with a caller-set focal length processed
by the loop; its entry survives with its set-flags intact. -/
theorem pipeline_never_unsets_calibration_fields_witness :
    ∃ pr', mapFind [("a", ({ focal_length := { is_set := true, value := 5 } } :
        CameraIntrinsicsPrior))] "a" = some pr' ∧
      priorSetLE { focal_length := { is_set := true, value := 5 } } pr' :=
  pipeline_never_unsets_calibration_fields
    { FileExists := fun _ => true
      GetFilenameFromFilepath := fun s => s
      ExtractEXIFMetadata := fun _ i => some i
      DetectAndExtractDescriptors := fun _ => some []
      imageDims := fun _ => (4, 4)
      maskDims := fun _ => (4, 4)
      BilinearInterpolate := fun _ _ _ => 1
      MatchImages := fun _ => [] } {} []
    (fun _ i i' h => Option.some.inj h ▸ priorSetLE_refl i) ["a"]
    [("a", { focal_length := { is_set := true, value := 5 } })]
    [("a", { focal_length := { is_set := true, value := 5 } })]
    [.full "a" [] { focal_length := { is_set := true, value := 5 } }] rfl
    "a" { focal_length := { is_set := true, value := 5 } } rfl

end TheiaSpec
